import Mathlib

/-!
# Lifetime and call discipline of the expo JSI bridge

A shallow embedding of the C++ sources

* `common/cpp/JSI/MemoryBuffer.cpp`
* `common/cpp/JSI/ObjectDeallocator.cpp`
* `common/cpp/JSI/TypedArray.h`
* `ExpoModulesJSI-Cxx/include/RetainedSwiftPointer.h`
* `ExpoModulesJSI-Cxx/include/HostFunctionClosure.h`
* `ExpoModulesJSI-Cxx/include/NativeState.h`
* `ExpoModulesJSI-Cxx/include/RuntimeScheduler.h`

Conventions of the embedding.

* The part of the program state a stored callable can touch is a *world* of an arbitrary
  type `σ`; a `void()` callable is a function `σ → σ`, a `void(Context)` callable a function
  `Nat → σ → σ`, and so on.  Every operation takes the world it starts in and returns the
  world it ends in.
* Raw pointers (`uint8_t*`, `void*`) and `size_t` values are natural numbers; none of the
  embedded code does arithmetic on them.
* A member function returns, next to its result, the object as it leaves it, so that
  "the call does not change the object" is a statement and not a convention.  A destructor
  is embedded as its body; the destruction of the members that follows the body ends the
  lifetime of the object, and the embedding gives no meaning to a further call on it.
* To count calls, a callable is wrapped by `observe`, which runs it and appends one event to
  a log carried next to the world.
-/

namespace expo

/-! ## Observation of calls -/

/-- Wrap a `void()` callable: run `f` on the world and record the event `e` in the log. -/
def observe {σ ε : Type} (e : ε) (f : σ → σ) : σ × List ε → σ × List ε :=
  fun w => (f w.1, w.2 ++ [e])

/-- Wrap a callable that returns a value: run `f` on the world, record `e`, pass the value on. -/
def observeRet {σ ε ρ : Type} (e : ε) (f : σ → ρ × σ) : σ × List ε → ρ × (σ × List ε) :=
  fun w => ((f w.1).1, ((f w.1).2, w.2 ++ [e]))

/-- Result of a member function: the returned value, the object afterwards, the world afterwards. -/
structure Ret (ρ α σ : Type) where
  value : ρ
  self : α
  world : σ

/-! ## `MemoryBuffer` (MemoryBuffer.cpp) -/

/-- The data members of `expo::MemoryBuffer`: `data_`, `size_` and `cleanupFunc`, a
`std::function<void()>` that may be empty (`none`, what `cleanupFunc != nullptr` tests). -/
structure MemoryBuffer (σ : Type) where
  data_ : Nat
  size_ : Nat
  cleanupFunc : Option (σ → σ)

/-- `MemoryBuffer::MemoryBuffer(data, size, cleanupFunc)`: a member initialiser list and an
empty body; the callable is moved into the object, not called. -/
def MemoryBuffer.ctor {σ : Type} (data size : Nat) (cleanupFunc : Option (σ → σ)) (w : σ) :
    MemoryBuffer σ × σ :=
  ({ data_ := data, size_ := size, cleanupFunc := cleanupFunc }, w)

/-- `MemoryBuffer::~MemoryBuffer()`: `if (cleanupFunc != nullptr) { cleanupFunc(); }`.
The body assigns to no member. -/
def MemoryBuffer.dtor {σ : Type} (self : MemoryBuffer σ) (w : σ) : MemoryBuffer σ × σ :=
  match self.cleanupFunc with
  | some f => (self, f w)
  | none => (self, w)

/-- `MemoryBuffer::data()`: `return data_;`. -/
def MemoryBuffer.data {σ : Type} (self : MemoryBuffer σ) (w : σ) : Ret Nat (MemoryBuffer σ) σ :=
  { value := self.data_, self := self, world := w }

/-- `MemoryBuffer::size() const`: `return size_;`. -/
def MemoryBuffer.size {σ : Type} (self : MemoryBuffer σ) (w : σ) : Ret Nat (MemoryBuffer σ) σ :=
  { value := self.size_, self := self, world := w }

/-! ## `RetainedSwiftPointer`, `HostFunctionClosure`, `NativeState` -/

/-- The data members of `expo::RetainedSwiftPointer`: `_context` (a `void *_Nonnull`) and
`_deallocator` (a pointer to a `void(Context)` function). -/
structure RetainedSwiftPointer (σ : Type) where
  _context : Nat
  _deallocator : Nat → σ → σ

/-- `RetainedSwiftPointer::RetainedSwiftPointer(context, deallocator)`: stores both. -/
def RetainedSwiftPointer.ctor {σ : Type} (context : Nat) (deallocator : Nat → σ → σ) (w : σ) :
    RetainedSwiftPointer σ × σ :=
  ({ _context := context, _deallocator := deallocator }, w)

/-- `virtual ~RetainedSwiftPointer() = default;`: no statement is executed. -/
def RetainedSwiftPointer.dtor {σ : Type} (self : RetainedSwiftPointer σ) (w : σ) :
    RetainedSwiftPointer σ × σ :=
  (self, w)

/-- `HostFunctionClosure::Closure`: `Value(Context, const Value *thisValue, const Value *args,
size_t count)`, with `ν` the type of `facebook::jsi::Value` and the argument array a list. -/
abbrev Closure (σ ν : Type) := Nat → ν → List ν → Nat → σ → ν × σ

/-- The data members of `expo::HostFunctionClosure`: those of the base and `_closure`. -/
structure HostFunctionClosure (σ ν : Type) extends RetainedSwiftPointer σ where
  _closure : Closure σ ν

/-- `HostFunctionClosure::HostFunctionClosure(context, closure, deallocator)`: the base
constructor on `(context, deallocator)`, then `_closure(closure)`; empty body. -/
def HostFunctionClosure.ctor {σ ν : Type} (context : Nat) (closure : Closure σ ν)
    (deallocator : Nat → σ → σ) (w : σ) : HostFunctionClosure σ ν × σ :=
  let base := RetainedSwiftPointer.ctor context deallocator w
  ({ toRetainedSwiftPointer := base.1, _closure := closure }, base.2)

/-- `HostFunctionClosure::~HostFunctionClosure()`, the body only: `_deallocator(_context);`. -/
def HostFunctionClosure.dtor {σ ν : Type} (self : HostFunctionClosure σ ν) (w : σ) :
    HostFunctionClosure σ ν × σ :=
  (self, self._deallocator self._context w)

/-- `HostFunctionClosure::call(thisValue, args, count) const`:
`return _closure(_context, &thisValue, args, count);`. -/
def HostFunctionClosure.call {σ ν : Type} (self : HostFunctionClosure σ ν) (thisValue : ν)
    (args : List ν) (count : Nat) (w : σ) : Ret ν (HostFunctionClosure σ ν) σ :=
  let r := self._closure self._context thisValue args count w
  { value := r.1, self := self, world := r.2 }

/-- Destruction of a `HostFunctionClosure` object: the body of the derived destructor, then
the destructor of the base class `RetainedSwiftPointer`. -/
def HostFunctionClosure.destroy {σ ν : Type} (self : HostFunctionClosure σ ν) (w : σ) : σ :=
  let r := HostFunctionClosure.dtor self w
  (RetainedSwiftPointer.dtor r.1.toRetainedSwiftPointer r.2).2

/-- The data members of `expo::NativeState`: those of `RetainedSwiftPointer`; the second
base, `facebook::jsi::NativeState`, is an interface without data. -/
structure NativeState (σ : Type) extends RetainedSwiftPointer σ

/-- `NativeState::NativeState(context, deallocator)`: the base constructor; empty body. -/
def NativeState.ctor {σ : Type} (context : Nat) (deallocator : Nat → σ → σ) (w : σ) :
    NativeState σ × σ :=
  let base := RetainedSwiftPointer.ctor context deallocator w
  ({ toRetainedSwiftPointer := base.1 }, base.2)

/-- `NativeState::~NativeState()`, the body only: `_deallocator(_context);`. -/
def NativeState.dtor {σ : Type} (self : NativeState σ) (w : σ) : NativeState σ × σ :=
  (self, self._deallocator self._context w)

/-- `NativeState::getContext()`: `return _context;`. -/
def NativeState.getContext {σ : Type} (self : NativeState σ) (w : σ) :
    Ret Nat (NativeState σ) σ :=
  { value := self._context, self := self, world := w }

/-- Destruction of a `NativeState` object: the body of the derived destructor, then the
destructor of the base class `RetainedSwiftPointer`. -/
def NativeState.destroy {σ : Type} (self : NativeState σ) (w : σ) : σ :=
  let r := NativeState.dtor self w
  (RetainedSwiftPointer.dtor r.1.toRetainedSwiftPointer r.2).2

/-- The calls the theorems below watch for: an invocation of a deallocator with the context
it was given, and an invocation of a closure with its four arguments. -/
inductive Event (ν : Type) where
  | deallocator (context : Nat)
  | closure (context : Nat) (thisValue : ν) (args : List ν) (count : Nat)
  deriving DecidableEq, Repr

/-- A deallocator `d` under observation: runs `d` and records the context it received. -/
def observeDeallocator {σ ν : Type} (d : Nat → σ → σ) :
    Nat → σ × List (Event ν) → σ × List (Event ν) :=
  fun c => observe (Event.deallocator c) (d c)

/-- A closure `f` under observation: runs `f` and records the four arguments it received. -/
def observeClosure {σ ν : Type} (f : Closure σ ν) : Closure (σ × List (Event ν)) ν :=
  fun c t a n => observeRet (Event.closure c t a n) (f c t a n)

/-! ## `setDeallocator` (ObjectDeallocator.cpp) -/

/-- Modelled from the spec: the class `ObjectDeallocator` of `ObjectDeallocator.h`, which is
not among the sources. Section 4.2 calls it the reclamation-triggered holder that wraps the
zero-argument native action; its one data member is that action. -/
structure ObjectDeallocator (σ : Type) where
  deallocator : σ → σ

/-- Modelled from the spec: the constructor of the absent class `ObjectDeallocator`; it
"wraps the action" and does not run it. -/
def ObjectDeallocator.ctor {σ : Type} (deallocator : σ → σ) : ObjectDeallocator σ :=
  { deallocator := deallocator }

/-- Modelled from the spec: the destructor of the absent class `ObjectDeallocator`;
"the holder's destructor fires the action exactly once" (section 4.2). -/
def ObjectDeallocator.dtor {σ : Type} (self : ObjectDeallocator σ) (w : σ) : σ :=
  self.deallocator w

/-- One `std::make_shared<ObjectDeallocator>` allocation: the holder and the number of
`std::shared_ptr`s that own it at the moment (`use_count`). The holder is destroyed when the
count drops from 1 to 0. -/
structure Shared (σ : Type) where
  object : ObjectDeallocator σ
  useCount : Nat

/-- Modelled from the spec: the part of the engine (`jsi::Runtime`) that `setNativeState`
works on. `heap` is every holder allocated so far, a `shared_ptr` being an index into it;
`nativeState obj` is the native-state slot of the engine object `obj`, "an explicit optional
field holding at most one native-state handle" (section 9); `world` is what the actions act
on. -/
structure Engine (σ : Type) where
  world : σ
  heap : List (Shared σ)
  nativeState : Nat → Option Nat

/-- `std::make_shared<ObjectDeallocator>(...)`: a new allocation, owned by the one
`shared_ptr` that is returned. -/
def Engine.makeShared {σ : Type} (o : ObjectDeallocator σ) (e : Engine σ) : Nat × Engine σ :=
  (e.heap.length, { e with heap := e.heap ++ [{ object := o, useCount := 1 }] })

/-- Copying a `shared_ptr`: one more owner. -/
def Engine.retain {σ : Type} (h : Nat) (e : Engine σ) : Engine σ :=
  match e.heap[h]? with
  | none => e
  | some s => { e with heap := e.heap.set h { s with useCount := s.useCount + 1 } }

/-- Destroying a `shared_ptr`: one owner fewer; the last owner runs the holder's destructor. -/
def Engine.release {σ : Type} (h : Nat) (e : Engine σ) : Engine σ :=
  match e.heap[h]? with
  | none => e
  | some s =>
    match s.useCount with
    | 0 => e
    | 1 => { e with heap := e.heap.set h { s with useCount := 0 },
                    world := s.object.dtor e.world }
    | k + 2 => { e with heap := e.heap.set h { s with useCount := k + 1 } }

/-- Modelled from the spec: `jsi::Object::setNativeState(runtime, state)` of the engine. The
slot takes a share of `state` and gives up the share of the holder it held before
("re-attachment replaces the prior association", section 3; "attaching a second
overwrites/orphans the first, which must still fire its own action when the older holder is
itself destroyed", section 4.2). -/
def Engine.setNativeState {σ : Type} (obj : Nat) (state : Nat) (e : Engine σ) : Engine σ :=
  let e1 := e.retain state
  let e2 := { e1 with nativeState := Function.update e1.nativeState obj (some state) }
  match e.nativeState obj with
  | none => e2
  | some old => e2.release old

/-- Modelled from the spec: the engine reclaims the object `obj` ("garbage collection or
explicit disposal", section 4.2): its native-state slot goes away with it and gives up its
share of the attached holder. -/
def Engine.reclaim {σ : Type} (obj : Nat) (e : Engine σ) : Engine σ :=
  match e.nativeState obj with
  | none => e
  | some h => Engine.release h { e with nativeState := Function.update e.nativeState obj none }

/-- `expo::common::setDeallocator(runtime, jsThis, deallocatorBlock)`:
`objectDeallocator = std::make_shared<ObjectDeallocator>(std::move(deallocatorBlock));`
`jsThis->setNativeState(runtime, objectDeallocator);` and, at the closing brace, the local
`objectDeallocator` goes out of scope. -/
def setDeallocator {σ : Type} (runtime : Engine σ) (jsThis : Nat) (deallocatorBlock : σ → σ) :
    Engine σ :=
  let made := runtime.makeShared (ObjectDeallocator.ctor deallocatorBlock)
  let objectDeallocator := made.1
  let attached := made.2.setNativeState jsThis objectDeallocator
  attached.release objectDeallocator

/-! ## `TypedArrayKind` and `TypedArray` (TypedArray.h) -/

/-- `enum class TypedArrayKind`. -/
inductive TypedArrayKind where
  | Int8Array
  | Int16Array
  | Int32Array
  | Uint8Array
  | Uint8ClampedArray
  | Uint16Array
  | Uint32Array
  | Float32Array
  | Float64Array
  | BigInt64Array
  | BigUint64Array
  deriving DecidableEq, Repr

/-- The enumerator values written in the `enum class TypedArrayKind` declaration. -/
def TypedArrayKind.value : TypedArrayKind → Nat
  | .Int8Array => 1
  | .Int16Array => 2
  | .Int32Array => 3
  | .Uint8Array => 4
  | .Uint8ClampedArray => 5
  | .Uint16Array => 6
  | .Uint32Array => 7
  | .Float32Array => 8
  | .Float64Array => 9
  | .BigInt64Array => 10
  | .BigUint64Array => 11

/-- The kinds in the order of the spec's data model (section 3): "{Int8, Int16, Int32, Uint8,
Uint8Clamped, Uint16, Uint32, Float32, Float64, BigInt64, BigUint64}". This list follows the
spec's words, not the source. -/
def TypedArrayKind.dataModelOrder : List TypedArrayKind :=
  [.Int8Array, .Int16Array, .Int32Array, .Uint8Array, .Uint8ClampedArray, .Uint16Array,
   .Uint32Array, .Float32Array, .Float64Array, .BigInt64Array, .BigUint64Array]

/-- Modelled from the spec: the `ArrayBuffer` objects of the engine, which is not among the
sources: the bytes of each, a `jsi::ArrayBuffer` being an index into the list. -/
abbrev ArrayBuffers := List (List Nat)

/-- Modelled from the spec: the state of a `TypedArray`, which in the source is an engine
object read through `getKind`, `getBuffer`, `byteOffset` and `byteLength`; `TypedArray.h` only
declares these. Section 3 gives it as kind, backing buffer (a non-owning reference),
`byteOffset` and `byteLength`. -/
structure TypedArray where
  kind : TypedArrayKind
  buffer : Nat
  byteOffset : Nat
  byteLength : Nat

/-- Modelled from the spec: `TypedArray::getViewedBufferSlice`, which `TypedArray.h` declares
and `TypedArray.cpp`, not among the sources, defines. Section 4.3: "if the window spans the
whole backing buffer, returns that buffer directly (no allocation, zero-copy); if the window
is a strict sub-range, allocates a new buffer holding a copy of exactly that sub-range"; by
section 7 a window outside the backing buffer is rejected, never clamped. The window spans
the whole buffer when `byteOffset = 0` and `byteLength` is the size of the buffer. The result
is the returned buffer and the buffers of the engine afterwards. -/
def TypedArray.getViewedBufferSlice (self : TypedArray) (buffers : ArrayBuffers) :
    Option (Nat × ArrayBuffers) :=
  match buffers[self.buffer]? with
  | none => none
  | some backing =>
    if backing.length < self.byteOffset + self.byteLength then none
    else if self.byteOffset = 0 ∧ self.byteLength = backing.length then
      some (self.buffer, buffers)
    else
      some (buffers.length,
        buffers ++ [(backing.drop self.byteOffset).take self.byteLength])

/-! ## `RuntimeScheduler` (RuntimeScheduler.h) -/

/-- `react::SchedulerPriority`, an enumeration of React Native; only passed along. -/
abbrev SchedulerPriority := Nat

/-- Modelled from the spec: `react::RuntimeSchedulerBinding`, a class of React Native, as far
as the bridge reads it: the scheduler it holds, a `std::shared_ptr<react::RuntimeScheduler>`,
that is an index into the scheduler heap. -/
structure RuntimeSchedulerBinding where
  runtimeScheduler : Nat

/-- Modelled from the spec: `jsi::Runtime`, the engine, as far as the bridge reads it: an
identity and the scheduler binding installed on it, if any (section 4.5: "probing the engine
for an existing scheduler binding"). -/
structure Runtime where
  id : Nat
  binding : Option RuntimeSchedulerBinding

/-- Modelled from the spec: `react::RuntimeSchedulerBinding::getBinding(runtime)` of React
Native: the binding installed on the runtime, or null. -/
def RuntimeSchedulerBinding.getBinding (runtime : Runtime) : Option RuntimeSchedulerBinding :=
  runtime.binding

/-- Modelled from the spec: `RuntimeSchedulerBinding::getRuntimeScheduler()` of React Native:
the scheduler the binding holds. -/
def RuntimeSchedulerBinding.getRuntimeScheduler (self : RuntimeSchedulerBinding) : Nat :=
  self.runtimeScheduler

/-- A task of the scheduler, `std::function<void(jsi::Runtime&)>`. -/
abbrev Task (σ : Type) := Runtime → σ → σ

/-- `react::RuntimeExecutor`: `std::function<void(std::function<void(jsi::Runtime&)>&&)>`. -/
abbrev RuntimeExecutor (σ : Type) := Task σ → σ → σ

/-- Modelled from the spec: `react::RuntimeScheduler`, a class of React Native. Section 4.5
knows two kinds. One is the scheduler attached to the engine: a task handed to it waits,
tagged with its priority, until the engine runs it. The other is built over a
`RuntimeExecutor`: the "synthetic immediate-execution path", on which a task is passed to
the executor at once and priorities play no part. -/
inductive ReactRuntimeScheduler (σ : Type) where
  | attached (taskQueue : List (SchedulerPriority × Task σ))
  | overExecutor (runtimeExecutor : RuntimeExecutor σ)

/-- Modelled from the spec: `react::RuntimeScheduler::scheduleTask(priority, task)`; see
`ReactRuntimeScheduler`. The result is the scheduler and the world afterwards. -/
def ReactRuntimeScheduler.scheduleTask {σ : Type} (self : ReactRuntimeScheduler σ)
    (priority : SchedulerPriority) (task : Task σ) (w : σ) : ReactRuntimeScheduler σ × σ :=
  match self with
  | .attached taskQueue => (.attached (taskQueue ++ [(priority, task)]), w)
  | .overExecutor runtimeExecutor => (.overExecutor runtimeExecutor, runtimeExecutor task w)

/-- The state the scheduler bridge works on: the world the callbacks act on and the heap of
`react::RuntimeScheduler` objects, a `shared_ptr` to one being its index. -/
structure SchedulerWorld (σ : Type) where
  user : σ
  schedulers : List (ReactRuntimeScheduler σ)

/-- `expo::runtimeSchedulerForRuntime(runtime)`: the scheduler of the binding when
`getBinding` finds one; otherwise a new `react::RuntimeScheduler`, made with
`std::make_shared` over the executor `[&runtime](callback) { callback(runtime); }`. -/
def runtimeSchedulerForRuntime {σ : Type} (runtime : Runtime) (w : SchedulerWorld σ) :
    Nat × SchedulerWorld σ :=
  match RuntimeSchedulerBinding.getBinding runtime with
  | some binding => (binding.getRuntimeScheduler, w)
  | none =>
    let runtimeExecutor : RuntimeExecutor σ := fun callback => callback runtime
    (w.schedulers.length,
      { w with schedulers := w.schedulers ++ [ReactRuntimeScheduler.overExecutor runtimeExecutor] })

/-- The data member of `expo::RuntimeScheduler`: `reactRuntimeScheduler`. -/
structure RuntimeScheduler where
  reactRuntimeScheduler : Nat

/-- `RuntimeScheduler::RuntimeScheduler(runtime)`:
`reactRuntimeScheduler(runtimeSchedulerForRuntime(runtime))`. -/
def RuntimeScheduler.ctor {σ : Type} (runtime : Runtime) (w : SchedulerWorld σ) :
    RuntimeScheduler × SchedulerWorld σ :=
  let found := runtimeSchedulerForRuntime runtime w
  ({ reactRuntimeScheduler := found.1 }, found.2)

/-- `RuntimeScheduler::scheduleTask(priority, callback)`:
`reactRuntimeScheduler->scheduleTask(priority, [callback](jsi::Runtime &runtime) { callback(); });`.
`none` stands for dereferencing a pointer that refers to no scheduler. -/
def RuntimeScheduler.scheduleTask {σ : Type} (self : RuntimeScheduler)
    (priority : SchedulerPriority) (callback : σ → σ) (w : SchedulerWorld σ) :
    Option (Ret Unit RuntimeScheduler (SchedulerWorld σ)) :=
  match w.schedulers[self.reactRuntimeScheduler]? with
  | none => none
  | some scheduler =>
    let r := scheduler.scheduleTask priority (fun _runtime => callback) w.user
    some { value := (), self := self,
           world := { user := r.2,
                      schedulers := w.schedulers.set self.reactRuntimeScheduler r.1 } }

/-- A sequence of `scheduleTask` calls on the same bridge, one after the other. -/
def RuntimeScheduler.scheduleTasks {σ : Type} :
    List (SchedulerPriority × (σ → σ)) → RuntimeScheduler → SchedulerWorld σ →
      Option (RuntimeScheduler × SchedulerWorld σ)
  | [], self, w => some (self, w)
  | (priority, callback) :: rest, self, w =>
    match self.scheduleTask priority callback w with
    | none => none
    | some r => RuntimeScheduler.scheduleTasks rest r.self r.world

/-! ## Theorems: `MemoryBuffer` -/

/-- C1. A `MemoryBuffer` constructed with pointer `d`, size `n` and cleanup action `f`:
destroying it once is one run of `f` (under observation: exactly one new event in the log,
and the world is `f w`); with a null cleanup action destruction runs nothing; the
constructor, `data()` and `size()` leave world and log as they are, whatever the cleanup
action is, and return the object unchanged. -/
theorem memoryBuffer_cleanup_once_on_destruction {σ ε : Type} (d n : Nat) (f : σ → σ) (e : ε)
    (w : σ) (log : List ε) :
    (MemoryBuffer.dtor (MemoryBuffer.ctor d n (some f) w).1 w).2 = f w ∧
    (MemoryBuffer.dtor (MemoryBuffer.ctor d n (some (observe e f)) (w, log)).1 (w, log)).2
      = (f w, log ++ [e]) ∧
    (MemoryBuffer.dtor (MemoryBuffer.ctor d n (none : Option (σ × List ε → σ × List ε))
      (w, log)).1 (w, log)).2 = (w, log) ∧
    (∀ c : Option (σ × List ε → σ × List ε),
      (MemoryBuffer.ctor d n c (w, log)).2 = (w, log) ∧
      (MemoryBuffer.data (MemoryBuffer.ctor d n c (w, log)).1 (w, log)).world = (w, log) ∧
      (MemoryBuffer.data (MemoryBuffer.ctor d n c (w, log)).1 (w, log)).value = d ∧
      (MemoryBuffer.data (MemoryBuffer.ctor d n c (w, log)).1 (w, log)).self
        = (MemoryBuffer.ctor d n c (w, log)).1 ∧
      (MemoryBuffer.size (MemoryBuffer.ctor d n c (w, log)).1 (w, log)).world = (w, log) ∧
      (MemoryBuffer.size (MemoryBuffer.ctor d n c (w, log)).1 (w, log)).value = n ∧
      (MemoryBuffer.size (MemoryBuffer.ctor d n c (w, log)).1 (w, log)).self
        = (MemoryBuffer.ctor d n c (w, log)).1) := by
  refine ⟨rfl, rfl, rfl, fun c => ⟨rfl, rfl, rfl, rfl, rfl, rfl, rfl⟩⟩

/-! ## Theorems: the retained-pointer wrappers -/

/-- C3. A `HostFunctionClosure` and a `NativeState` constructed with context `c` and
deallocator `d`: destroying the wrapper (body of the derived destructor, then the base
destructor) is one call `d c` (under observation: exactly one new deallocator event, carrying
`c`); construction and `getContext` leave world and log as they are, and `call` adds the
closure's event and no deallocator event. -/
theorem retained_wrapper_destruction_calls_deallocator_once {σ ν : Type} (c : Nat)
    (d : Nat → σ → σ) (f : Closure σ ν) (t : ν) (a : List ν) (n : Nat) (w : σ)
    (log : List (Event ν)) :
    (HostFunctionClosure.destroy (HostFunctionClosure.ctor c f d w).1 w = d c w) ∧
    (NativeState.destroy (NativeState.ctor c d w).1 w = d c w) ∧
    (HostFunctionClosure.destroy
        (HostFunctionClosure.ctor c (observeClosure f) (observeDeallocator d) (w, log)).1 (w, log)
      = (d c w, log ++ [Event.deallocator c])) ∧
    (NativeState.destroy (NativeState.ctor c (observeDeallocator d) (w, log)).1 (w, log)
      = (d c w, log ++ [Event.deallocator c])) ∧
    ((HostFunctionClosure.ctor c (observeClosure f) (observeDeallocator d) (w, log)).2
      = (w, log)) ∧
    ((NativeState.ctor c (observeDeallocator d) (w, log)).2 = (w, log)) ∧
    ((HostFunctionClosure.call
        (HostFunctionClosure.ctor c (observeClosure f) (observeDeallocator d) (w, log)).1
        t a n (w, log)).world.2 = log ++ [Event.closure c t a n]) ∧
    ((NativeState.getContext (NativeState.ctor c (observeDeallocator d) (w, log)).1
        (w, log)).world = (w, log)) := by
  refine ⟨rfl, rfl, rfl, rfl, rfl, rfl, rfl, rfl⟩

/-- C4, as stated, fails: the destructor of the base `RetainedSwiftPointer` calls nothing
(the log stays empty), and the deallocator is called in the destructor of the derived
`HostFunctionClosure` and in that of the derived `NativeState`. -/
theorem retainedSwiftPointer_base_destructor_calls_nothing :
    ((RetainedSwiftPointer.dtor
        (RetainedSwiftPointer.ctor 5 (observeDeallocator (fun _ (u : Nat) => u + 1))
          (0, ([] : List (Event Nat)))).1 (0, [])).2 = (0, [])) ∧
    ((HostFunctionClosure.dtor
        (HostFunctionClosure.ctor 5 (observeClosure (fun _ (t : Nat) _ _ u => (t, u)))
          (observeDeallocator (fun _ (u : Nat) => u + 1)) (0, [])).1 (0, [])).2
      = (1, [Event.deallocator 5])) ∧
    ((NativeState.dtor
        (NativeState.ctor 5 (observeDeallocator (fun _ (u : Nat) => u + 1))
          (0, ([] : List (Event Nat)))).1 (0, [])).2 = (1, [Event.deallocator 5])) := by
  refine ⟨rfl, rfl, rfl⟩

/-- C4, amended. The base `RetainedSwiftPointer` stores context and deallocator; its own
destructor runs no statement and calls nothing. The release points are the destructors of
the derived classes: the body of `~HostFunctionClosure` and the body of `~NativeState` each
call `deallocator(context)` once, and no other member of the family (the constructors,
`call`, `getContext`, the base destructor) adds a deallocator event. -/
theorem retained_family_release_points {σ ν : Type} (c : Nat) (d : Nat → σ → σ)
    (f : Closure σ ν) (t : ν) (a : List ν) (n : Nat) (w : σ) (log : List (Event ν)) :
    ((RetainedSwiftPointer.ctor c (observeDeallocator d) (w, log)).1._context = c) ∧
    ((RetainedSwiftPointer.ctor c (observeDeallocator d) (w, log)).1._deallocator
      = (observeDeallocator d : Nat → σ × List (Event ν) → σ × List (Event ν))) ∧
    ((RetainedSwiftPointer.ctor c (observeDeallocator d) (w, log)).2 = (w, log)) ∧
    ((RetainedSwiftPointer.dtor (RetainedSwiftPointer.ctor c (observeDeallocator d) (w, log)).1
        (w, log)).2 = (w, log)) ∧
    ((HostFunctionClosure.dtor
        (HostFunctionClosure.ctor c (observeClosure f) (observeDeallocator d) (w, log)).1
        (w, log)).2 = (d c w, log ++ [Event.deallocator c])) ∧
    ((NativeState.dtor (NativeState.ctor c (observeDeallocator d) (w, log)).1 (w, log)).2
      = (d c w, log ++ [Event.deallocator c])) ∧
    ((HostFunctionClosure.ctor c (observeClosure f) (observeDeallocator d) (w, log)).2
      = (w, log)) ∧
    ((NativeState.ctor c (observeDeallocator d) (w, log)).2 = (w, log)) ∧
    ((HostFunctionClosure.call
        (HostFunctionClosure.ctor c (observeClosure f) (observeDeallocator d) (w, log)).1
        t a n (w, log)).world.2 = log ++ [Event.closure c t a n]) ∧
    ((NativeState.getContext (NativeState.ctor c (observeDeallocator d) (w, log)).1
        (w, log)).world.2 = log) := by
  refine ⟨rfl, rfl, rfl, rfl, rfl, rfl, rfl, rfl, rfl, rfl⟩

/-- C5. For a `HostFunctionClosure` built from context `c`, closure `f` and any deallocator
`d`: `call(t, a, n)` returns the value `f c t a n` returns and ends in the world `f` ends in;
under observation the log gains exactly one event, the closure's, with the arguments
`(c, t, a, n)`, and no deallocator event; the object after the call is the object before it,
so the stored context and closure are unchanged. -/
theorem hostFunctionClosure_call_forwards_to_closure {σ ν : Type} (c : Nat) (f : Closure σ ν)
    (d : Nat → σ → σ) (t : ν) (a : List ν) (n : Nat) (w : σ) (log : List (Event ν)) :
    ((HostFunctionClosure.call (HostFunctionClosure.ctor c f d w).1 t a n w).value
      = (f c t a n w).1) ∧
    ((HostFunctionClosure.call (HostFunctionClosure.ctor c f d w).1 t a n w).world
      = (f c t a n w).2) ∧
    ((HostFunctionClosure.call
        (HostFunctionClosure.ctor c (observeClosure f) (observeDeallocator d) (w, log)).1
        t a n (w, log)).value = (f c t a n w).1) ∧
    ((HostFunctionClosure.call
        (HostFunctionClosure.ctor c (observeClosure f) (observeDeallocator d) (w, log)).1
        t a n (w, log)).world = ((f c t a n w).2, log ++ [Event.closure c t a n])) ∧
    ((HostFunctionClosure.call (HostFunctionClosure.ctor c f d w).1 t a n w).self
      = (HostFunctionClosure.ctor c f d w).1) ∧
    ((HostFunctionClosure.call (HostFunctionClosure.ctor c f d w).1 t a n w).self._context
      = c) ∧
    ((HostFunctionClosure.call (HostFunctionClosure.ctor c f d w).1 t a n w).self._closure
      = f) := by
  refine ⟨rfl, rfl, rfl, rfl, rfl, rfl, rfl⟩

/-! ## Theorems: `setDeallocator` -/

theorem Engine.release_heap_length {σ : Type} (h : Nat) (e : Engine σ) :
    (e.release h).heap.length = e.heap.length := by
  unfold Engine.release
  split
  · rfl
  · split <;> simp

/-- Releasing a handle of the old heap is not affected by a later allocation or by the slots. -/
theorem Engine.release_append {σ : Type} (h : Nat) (e : Engine σ) (x : Shared σ)
    (ns : Nat → Option Nat) (hlt : h < e.heap.length) :
    Engine.release h { world := e.world, heap := e.heap ++ [x], nativeState := ns }
      = { world := (e.release h).world, heap := (e.release h).heap ++ [x], nativeState := ns } := by
  unfold Engine.release
  simp only [List.getElem?_append_left hlt]
  cases hs : e.heap[h]? with
  | none => rfl
  | some s =>
    simp only
    split <;> simp [List.set_append, hlt]

/-- Releasing the last owner of the newest allocation runs its action and marks it destroyed. -/
theorem Engine.release_last {σ : Type} (w : σ) (heap : List (Shared σ)) (o : ObjectDeallocator σ)
    (ns : Nat → Option Nat) :
    Engine.release heap.length { world := w, heap := heap ++ [{ object := o, useCount := 1 }],
                                 nativeState := ns }
      = { world := o.deallocator w, heap := heap ++ [{ object := o, useCount := 0 }],
          nativeState := ns } := by
  simp [Engine.release, ObjectDeallocator.dtor]

/-- What `setDeallocator` does to an engine whose slot for `jsThis` is empty. -/
theorem setDeallocator_of_empty_slot {σ : Type} (e : Engine σ) (obj : Nat) (a : σ → σ)
    (hnone : e.nativeState obj = none) :
    setDeallocator e obj a
      = { world := e.world, heap := e.heap ++ [{ object := { deallocator := a }, useCount := 1 }],
          nativeState := Function.update e.nativeState obj (some e.heap.length) } := by
  simp [setDeallocator, Engine.makeShared, Engine.setNativeState, Engine.retain, Engine.release,
    ObjectDeallocator.ctor, hnone]

/-- What `setDeallocator` does to an engine whose slot for `jsThis` holds `old`. -/
theorem setDeallocator_of_full_slot {σ : Type} (e : Engine σ) (obj old : Nat) (a : σ → σ)
    (hsome : e.nativeState obj = some old) (hlt : old < e.heap.length) :
    setDeallocator e obj a
      = { world := (e.release old).world,
          heap := (e.release old).heap ++ [{ object := { deallocator := a }, useCount := 1 }],
          nativeState := Function.update e.nativeState obj (some e.heap.length) } := by
  have hne : old ≠ e.heap.length := Nat.ne_of_lt hlt
  simp only [setDeallocator, Engine.makeShared, Engine.setNativeState, Engine.retain,
    ObjectDeallocator.ctor, hsome]
  simp only [List.getElem?_concat_length, List.length_append, List.length_singleton]
  have hset : (e.heap ++ [({ object := { deallocator := a }, useCount := 1 } : Shared σ)]).set
      e.heap.length { object := { deallocator := a }, useCount := 1 + 1 }
      = e.heap ++ [{ object := { deallocator := a }, useCount := 2 }] := by
    simp [List.set_append]
  rw [hset]
  have hrel := Engine.release_append old e { object := { deallocator := a }, useCount := 2 }
    (Function.update e.nativeState obj (some e.heap.length)) hlt
  rw [hrel]
  have hlen := Engine.release_heap_length old e
  rw [← hlen]
  simp [Engine.release]

/-- The shape of the engine after `setDeallocator`: one allocation more, the slot on it. -/
theorem setDeallocator_shape {σ : Type} (e : Engine σ) (obj : Nat) (a : σ → σ)
    (hwf : ∀ old, e.nativeState obj = some old → old < e.heap.length) :
    ∃ (W : σ) (H : List (Shared σ)), H.length = e.heap.length ∧
      (e.nativeState obj = none → W = e.world) ∧
      setDeallocator e obj a
        = { world := W, heap := H ++ [{ object := { deallocator := a }, useCount := 1 }],
            nativeState := Function.update e.nativeState obj (some H.length) } := by
  cases hslot : e.nativeState obj with
  | none =>
    exact ⟨e.world, e.heap, rfl, fun _ => rfl, setDeallocator_of_empty_slot e obj a hslot⟩
  | some old =>
    refine ⟨(e.release old).world, (e.release old).heap, Engine.release_heap_length old e,
      fun h => by simp at h, ?_⟩
    rw [setDeallocator_of_full_slot e obj old a hslot (hwf old hslot),
      Engine.release_heap_length]

/-- A second `setDeallocator` on the same object destroys the holder attached by the first. -/
theorem setDeallocator_over_attached {σ : Type} (W : σ) (H : List (Shared σ))
    (ns : Nat → Option Nat) (obj : Nat) (a1 a2 : σ → σ) :
    setDeallocator
        { world := W, heap := H ++ [{ object := { deallocator := a1 }, useCount := 1 }],
          nativeState := Function.update ns obj (some H.length) } obj a2
      = { world := a1 W,
          heap := H ++ [{ object := { deallocator := a1 }, useCount := 0 }]
            ++ [{ object := { deallocator := a2 }, useCount := 1 }],
          nativeState := Function.update ns obj (some (H.length + 1)) } := by
  rw [setDeallocator_of_full_slot _ obj H.length a2 (by simp) (by simp)]
  simp [Engine.release_last]

/-- Reclaiming the object destroys the holder in its slot. -/
theorem reclaim_attached {σ : Type} (W : σ) (H : List (Shared σ))
    (ns : Nat → Option Nat) (obj : Nat) (a : σ → σ) :
    Engine.reclaim obj
        { world := W, heap := H ++ [{ object := { deallocator := a }, useCount := 1 }],
          nativeState := Function.update ns obj (some H.length) }
      = { world := a W, heap := H ++ [{ object := { deallocator := a }, useCount := 0 }],
          nativeState := Function.update ns obj none } := by
  simp [Engine.reclaim, Engine.release_last]



/-- The last two entries of a list that ends in `x, y`. -/
theorem getElem?_two_appended {α : Type} (H : List α) (x y : α) :
    (H ++ [x] ++ [y])[H.length]? = some x ∧ (H ++ [x] ++ [y])[H.length + 1]? = some y := by
  constructor
  · rw [List.append_assoc, List.getElem?_append_right (Nat.le_refl _)]
    simp
  · rw [List.append_assoc, List.getElem?_append_right (Nat.le_succ _)]
    simp

/-- C6. After `setDeallocator(runtime, obj, action)` the native-state slot of `obj` holds a
holder allocated by this very call (its handle is the first one past the old heap, the heap
is one longer) that wraps exactly `action` and has the slot as its only owner, whatever
handle of the old heap the slot held before; the slots of other objects are untouched. After
`A1` and then `A2` are attached to the same object the slot holds the holder of `A2` only,
and once the object is reclaimed the world is `A2 (A1 w1)`, `w1` being the world after the
first attachment (the world before it when the slot was empty): each action ran exactly once,
and both holders are destroyed. -/
theorem setDeallocator_overwrites_and_both_actions_fire_once {σ : Type} (e : Engine σ)
    (obj : Nat) (a1 a2 : σ → σ)
    (hwf : ∀ old, e.nativeState obj = some old → old < e.heap.length) :
    ((setDeallocator e obj a1).nativeState obj = some e.heap.length) ∧
    ((setDeallocator e obj a1).heap[e.heap.length]?
      = some { object := { deallocator := a1 }, useCount := 1 }) ∧
    ((setDeallocator e obj a1).heap.length = e.heap.length + 1) ∧
    (∀ other, other ≠ obj → (setDeallocator e obj a1).nativeState other = e.nativeState other) ∧
    ((setDeallocator (setDeallocator e obj a1) obj a2).nativeState obj
      = some (e.heap.length + 1)) ∧
    ((setDeallocator (setDeallocator e obj a1) obj a2).heap[e.heap.length + 1]?
      = some { object := { deallocator := a2 }, useCount := 1 }) ∧
    ((setDeallocator (setDeallocator e obj a1) obj a2).heap[e.heap.length]?
      = some { object := { deallocator := a1 }, useCount := 0 }) ∧
    ((setDeallocator (setDeallocator e obj a1) obj a2).world
      = a1 (setDeallocator e obj a1).world) ∧
    ((Engine.reclaim obj (setDeallocator (setDeallocator e obj a1) obj a2)).world
      = a2 (a1 (setDeallocator e obj a1).world)) ∧
    (e.nativeState obj = none →
      (Engine.reclaim obj (setDeallocator (setDeallocator e obj a1) obj a2)).world
        = a2 (a1 e.world)) ∧
    ((Engine.reclaim obj (setDeallocator (setDeallocator e obj a1) obj a2)).heap[e.heap.length]?
      = some { object := { deallocator := a1 }, useCount := 0 }) ∧
    ((Engine.reclaim obj
        (setDeallocator (setDeallocator e obj a1) obj a2)).heap[e.heap.length + 1]?
      = some { object := { deallocator := a2 }, useCount := 0 }) ∧
    ((Engine.reclaim obj (setDeallocator (setDeallocator e obj a1) obj a2)).nativeState obj
      = none) := by
  obtain ⟨W, H, hlen, hW, h1⟩ := setDeallocator_shape e obj a1 hwf
  have h2 := setDeallocator_over_attached W H e.nativeState obj a1 a2
  have h3 := reclaim_attached (a1 W)
    (H ++ [{ object := { deallocator := a1 }, useCount := 0 }]) e.nativeState obj a2
  simp only [List.length_append, List.length_singleton] at h3
  rw [h1, h2, h3, ← hlen]
  refine ⟨by simp, by simp, by simp, ?_, by simp, ?_, ?_, rfl, rfl, ?_, ?_, ?_, by simp⟩
  · intro other hne
    simp [Function.update, hne]
  · exact (getElem?_two_appended H _ _).2
  · exact (getElem?_two_appended H _ _).1
  · intro hnone
    rw [hW hnone]
  · exact (getElem?_two_appended H _ _).1
  · exact (getElem?_two_appended H _ _).2

/-- C6 at a concrete engine: an object `3` with an empty slot, a first hook that adds 10 and
a second that doubles, both observed. After the release the log is `[1, 2]`. -/
theorem setDeallocator_overwrites_and_both_actions_fire_once_witness :
    (∀ old, ({ world := ((0 : Nat), ([] : List Nat)), heap := [],
               nativeState := fun _ => none } : Engine (Nat × List Nat)).nativeState 3
        = some old → old < 0) ∧
    (Engine.reclaim 3 (setDeallocator (setDeallocator
      { world := ((0 : Nat), ([] : List Nat)), heap := [], nativeState := fun _ => none } 3
      (observe 1 (fun u => u + 10))) 3 (observe 2 (fun u => u * 2)))).world = (20, [1, 2]) :=
  ⟨by simp,
   ((setDeallocator_overwrites_and_both_actions_fire_once
      { world := ((0 : Nat), ([] : List Nat)), heap := [], nativeState := fun _ => none } 3
      (observe 1 (fun u => u + 10)) (observe 2 (fun u => u * 2))
      (by simp)).2.2.2.2.2.2.2.2.2.1 rfl)⟩

/-! ## Theorems: `TypedArrayKind` and `TypedArray` -/

/-- C7. The enumerator values of `TypedArrayKind` are Int8Array=1, ..., BigUint64Array=11; the
map from kind to value is injective, its image is exactly the integers 1 to 11, and read in
the order of the spec's data model (which lists every kind once) the values are 1, 2, ..., 11. -/
theorem typedArrayKind_values_are_one_to_eleven :
    (TypedArrayKind.Int8Array.value = 1 ∧ TypedArrayKind.Int16Array.value = 2 ∧
      TypedArrayKind.Int32Array.value = 3 ∧ TypedArrayKind.Uint8Array.value = 4 ∧
      TypedArrayKind.Uint8ClampedArray.value = 5 ∧ TypedArrayKind.Uint16Array.value = 6 ∧
      TypedArrayKind.Uint32Array.value = 7 ∧ TypedArrayKind.Float32Array.value = 8 ∧
      TypedArrayKind.Float64Array.value = 9 ∧ TypedArrayKind.BigInt64Array.value = 10 ∧
      TypedArrayKind.BigUint64Array.value = 11) ∧
    Function.Injective TypedArrayKind.value ∧
    (∀ n : Nat, (∃ k : TypedArrayKind, k.value = n) ↔ (1 ≤ n ∧ n ≤ 11)) ∧
    (TypedArrayKind.dataModelOrder.map TypedArrayKind.value
      = [1, 2, 3, 4, 5, 6, 7, 8, 9, 10, 11]) ∧
    (TypedArrayKind.dataModelOrder.Nodup ∧ ∀ k : TypedArrayKind,
      k ∈ TypedArrayKind.dataModelOrder) := by
  refine ⟨⟨rfl, rfl, rfl, rfl, rfl, rfl, rfl, rfl, rfl, rfl, rfl⟩, ?_, ?_, rfl, by decide, ?_⟩
  · intro a b h
    cases a <;> cases b <;> first | rfl | (exact absurd h (by decide))
  · intro n
    constructor
    · rintro ⟨k, rfl⟩
      cases k <;> decide
    · rintro ⟨h1, h11⟩
      interval_cases n
      · exact ⟨.Int8Array, rfl⟩
      · exact ⟨.Int16Array, rfl⟩
      · exact ⟨.Int32Array, rfl⟩
      · exact ⟨.Uint8Array, rfl⟩
      · exact ⟨.Uint8ClampedArray, rfl⟩
      · exact ⟨.Uint16Array, rfl⟩
      · exact ⟨.Uint32Array, rfl⟩
      · exact ⟨.Float32Array, rfl⟩
      · exact ⟨.Float64Array, rfl⟩
      · exact ⟨.BigInt64Array, rfl⟩
      · exact ⟨.BigUint64Array, rfl⟩
  · intro k
    cases k <;> decide

/-- C9. For a typed view over a backing buffer with `byteOffset = o` and `byteLength = l`
where `o + l` is less than the size of the backing buffer, `getViewedBufferSlice` returns a
buffer allocated by the call (its handle is the first one past the old buffers, so it is not
the backing buffer) whose length is exactly `l` and whose byte `i` is byte `o + i` of the
backing buffer; the backing buffer and every other old buffer keep their bytes. -/
theorem getViewedBufferSlice_copies_strict_subrange (v : TypedArray) (buffers : ArrayBuffers)
    (backing : List Nat) (hb : buffers[v.buffer]? = some backing)
    (hlt : v.byteOffset + v.byteLength < backing.length) :
    ∃ (slice : Nat) (after : ArrayBuffers) (bytes : List Nat),
      v.getViewedBufferSlice buffers = some (slice, after) ∧
      slice = buffers.length ∧ slice ≠ v.buffer ∧
      after[slice]? = some bytes ∧
      bytes.length = v.byteLength ∧
      bytes = (backing.drop v.byteOffset).take v.byteLength ∧
      (∀ i, i < v.byteLength → bytes[i]? = backing[v.byteOffset + i]?) ∧
      after[v.buffer]? = some backing ∧
      (∀ i, i < buffers.length → after[i]? = buffers[i]?) ∧
      after.length = buffers.length + 1 := by
  have hin : v.buffer < buffers.length := by
    by_contra hge
    rw [List.getElem?_eq_none (Nat.le_of_not_lt hge)] at hb
    exact absurd hb (by simp)
  refine ⟨buffers.length, buffers ++ [(backing.drop v.byteOffset).take v.byteLength],
    (backing.drop v.byteOffset).take v.byteLength, ?_, rfl, Nat.ne_of_gt hin, by simp, ?_, rfl,
    ?_, ?_, ?_, by simp⟩
  · unfold TypedArray.getViewedBufferSlice
    rw [hb]
    have h1 : ¬ backing.length < v.byteOffset + v.byteLength := by omega
    have h2 : ¬ (v.byteOffset = 0 ∧ v.byteLength = backing.length) := by omega
    simp [h1, h2]
  · simp [List.length_take, List.length_drop]
    omega
  · intro i hi
    rw [List.getElem?_take_of_lt hi, List.getElem?_drop]
  · rw [List.getElem?_append_left hin, hb]
  · intro i hi
    rw [List.getElem?_append_left hi]

/-- C9 at a concrete view: bytes 1 and 2 of a four-byte buffer. -/
theorem getViewedBufferSlice_copies_strict_subrange_witness :
    ([[10, 20, 30, 40]] : ArrayBuffers)[0]? = some [10, 20, 30, 40] ∧ 1 + 2 < 4 ∧
    ∃ (slice : Nat) (after : ArrayBuffers) (bytes : List Nat),
      TypedArray.getViewedBufferSlice
        { kind := .Uint8Array, buffer := 0, byteOffset := 1, byteLength := 2 }
        [[10, 20, 30, 40]] = some (slice, after) ∧
      slice = 1 ∧ slice ≠ 0 ∧ after[slice]? = some bytes ∧ bytes.length = 2 ∧
      bytes = [20, 30] ∧
      (∀ i, i < 2 → bytes[i]? = ([10, 20, 30, 40] : List Nat)[1 + i]?) ∧
      after[0]? = some [10, 20, 30, 40] ∧
      (∀ i, i < 1 → after[i]? = ([[10, 20, 30, 40]] : ArrayBuffers)[i]?) ∧
      after.length = 1 + 1 :=
  ⟨rfl, by decide,
    getViewedBufferSlice_copies_strict_subrange
      { kind := .Uint8Array, buffer := 0, byteOffset := 1, byteLength := 2 }
      [[10, 20, 30, 40]] [10, 20, 30, 40] rfl (by decide)⟩

/-! ## Theorems: `RuntimeScheduler` -/

/-- Overwriting the newest entry of a list. -/
theorem set_last_appended {α : Type} (H : List α) (x y : α) :
    (H ++ [x]).set H.length y = H ++ [y] := by
  simp [List.set_append]

/-- On a bridge built for a runtime without binding, one `scheduleTask` runs the callback,
whatever the state of the world the callbacks act on. -/
theorem unbound_scheduleTask_step {σ : Type} (id : Nat) (S : List (ReactRuntimeScheduler σ))
    (p : SchedulerPriority) (c : σ → σ) (u : σ) :
    RuntimeScheduler.scheduleTask { reactRuntimeScheduler := S.length } p c
        { user := u,
          schedulers := S ++ [ReactRuntimeScheduler.overExecutor
            (fun callback => callback { id := id, binding := none })] }
      = some { value := (), self := { reactRuntimeScheduler := S.length },
               world := { user := c u,
                          schedulers := S ++ [ReactRuntimeScheduler.overExecutor
                            (fun callback => callback { id := id, binding := none })] } } := by
  simp [RuntimeScheduler.scheduleTask, ReactRuntimeScheduler.scheduleTask, set_last_appended]

/-- On a bridge built for a runtime without binding, a sequence of `scheduleTask` calls has
run every callback, in the order of the calls, when the last call returns. -/
theorem unbound_scheduleTasks_fold {σ : Type} (id : Nat) (S : List (ReactRuntimeScheduler σ))
    (tasks : List (SchedulerPriority × (σ → σ))) (u : σ) :
    RuntimeScheduler.scheduleTasks tasks { reactRuntimeScheduler := S.length }
        { user := u,
          schedulers := S ++ [ReactRuntimeScheduler.overExecutor
            (fun callback => callback { id := id, binding := none })] }
      = some ({ reactRuntimeScheduler := S.length },
              { user := tasks.foldl (fun acc t => t.2 acc) u,
                schedulers := S ++ [ReactRuntimeScheduler.overExecutor
                  (fun callback => callback { id := id, binding := none })] }) := by
  induction tasks generalizing u with
  | nil => rfl
  | cons t rest ih =>
    obtain ⟨p, c⟩ := t
    simp only [RuntimeScheduler.scheduleTasks, unbound_scheduleTask_step, List.foldl_cons]
    exact ih (c u)

/-- C8. In Unbound mode (the runtime has no scheduler binding, so the bridge is constructed
over a new scheduler whose executor invokes its argument at once), `scheduleTask(p, c)`
returns with the callback executed, for every priority `p` and callback `c`: the world it
returns is `c` applied to the world before the call; under observation the log has gained
exactly the event of `c`. The same holds for every later call: after any sequence of calls
every callback has run, in the order of the calls, whatever the priorities. -/
theorem unbound_scheduleTask_runs_callback_before_returning {σ ε : Type} (id : Nat)
    (w : SchedulerWorld σ) (wo : SchedulerWorld (σ × List ε)) (p : SchedulerPriority)
    (c : σ → σ) (e : ε) (tasks : List (SchedulerPriority × (σ → σ))) :
    ((RuntimeScheduler.ctor { id := id, binding := none } w).2.user = w.user) ∧
    ((RuntimeScheduler.ctor { id := id, binding := none } w).2.schedulers.length
      = w.schedulers.length + 1) ∧
    ((RuntimeScheduler.scheduleTask (RuntimeScheduler.ctor { id := id, binding := none } w).1 p c
        (RuntimeScheduler.ctor { id := id, binding := none } w).2).map (fun r => r.world.user)
      = some (c w.user)) ∧
    ((RuntimeScheduler.scheduleTask
        (RuntimeScheduler.ctor { id := id, binding := none } wo).1 p (observe e c)
        (RuntimeScheduler.ctor { id := id, binding := none } wo).2).map (fun r => r.world.user)
      = some (c wo.user.1, wo.user.2 ++ [e])) ∧
    ((RuntimeScheduler.scheduleTasks (tasks ++ [(p, c)])
        (RuntimeScheduler.ctor { id := id, binding := none } w).1
        (RuntimeScheduler.ctor { id := id, binding := none } w).2).map (fun r => r.2.user)
      = some (c (tasks.foldl (fun acc t => t.2 acc) w.user))) := by
  refine ⟨rfl, by simp [RuntimeScheduler.ctor, runtimeSchedulerForRuntime,
    RuntimeSchedulerBinding.getBinding], ?_, ?_, ?_⟩
  · simp only [RuntimeScheduler.ctor, runtimeSchedulerForRuntime,
      RuntimeSchedulerBinding.getBinding]
    rw [unbound_scheduleTask_step]
    rfl
  · simp only [RuntimeScheduler.ctor, runtimeSchedulerForRuntime,
      RuntimeSchedulerBinding.getBinding]
    rw [unbound_scheduleTask_step]
    rfl
  · simp only [RuntimeScheduler.ctor, runtimeSchedulerForRuntime,
      RuntimeSchedulerBinding.getBinding]
    rw [unbound_scheduleTasks_fold]
    simp [List.foldl_append]

/-- C10. The scheduler the bridge uses is chosen in its constructor and never changes: when
the runtime has a scheduler binding the bridge holds the handle of the binding's scheduler
and the constructor allocates nothing, and `scheduleTask` returns the bridge as it was. In
that Bound mode `scheduleTask(p, c)` is one call of the scheduler's `scheduleTask` with
priority `p` and a task that, for every runtime argument, is `c`; on a scheduler attached to
the engine the queue gains exactly one entry, tagged `p`, no callback runs, and no other
scheduler changes. -/
theorem bound_scheduleTask_submits_one_task_with_priority {σ : Type} (id h : Nat)
    (w : SchedulerWorld σ) (S : ReactRuntimeScheduler σ) (p : SchedulerPriority) (c : σ → σ)
    (hS : w.schedulers[h]? = some S) :
    (RuntimeScheduler.ctor { id := id, binding := some { runtimeScheduler := h } } w
      = ({ reactRuntimeScheduler := h }, w)) ∧
    (∃ task : Task σ, (∀ runtime, task runtime = c) ∧
      RuntimeScheduler.scheduleTask
          (RuntimeScheduler.ctor { id := id, binding := some { runtimeScheduler := h } } w).1 p c w
        = some { value := (), self := { reactRuntimeScheduler := h },
                 world := { user := (S.scheduleTask p task w.user).2,
                            schedulers := w.schedulers.set h (S.scheduleTask p task w.user).1 } } ∧
      ∀ taskQueue, S = ReactRuntimeScheduler.attached taskQueue →
        RuntimeScheduler.scheduleTask
            (RuntimeScheduler.ctor { id := id, binding := some { runtimeScheduler := h } } w).1
            p c w
          = some { value := (), self := { reactRuntimeScheduler := h },
                   world := { user := w.user,
                              schedulers := w.schedulers.set h
                                (ReactRuntimeScheduler.attached (taskQueue ++ [(p, task)])) } }) := by
  refine ⟨rfl, fun _ => c, fun _ => rfl, ?_, ?_⟩
  · simp [RuntimeScheduler.ctor, runtimeSchedulerForRuntime, RuntimeSchedulerBinding.getBinding,
      RuntimeSchedulerBinding.getRuntimeScheduler, RuntimeScheduler.scheduleTask, hS]
  · intro taskQueue hq
    subst hq
    simp [RuntimeScheduler.ctor, runtimeSchedulerForRuntime, RuntimeSchedulerBinding.getBinding,
      RuntimeSchedulerBinding.getRuntimeScheduler, RuntimeScheduler.scheduleTask, hS,
      ReactRuntimeScheduler.scheduleTask]

/-- C10 at a concrete engine: the binding holds scheduler `0`, attached to the engine, with an
empty queue; the bridge is asked to schedule a callback with priority 3. The constructor
returns the handle `0` and the world as it was, and after the call the queue holds one task,
tagged 3, that is the callback for every runtime argument. -/
theorem bound_scheduleTask_submits_one_task_with_priority_witness :
    (({ user := 0, schedulers := [ReactRuntimeScheduler.attached []] } :
        SchedulerWorld Nat).schedulers[0]? = some (ReactRuntimeScheduler.attached [])) ∧
    (RuntimeScheduler.ctor { id := 7, binding := some { runtimeScheduler := 0 } }
        ({ user := 0, schedulers := [ReactRuntimeScheduler.attached []] } : SchedulerWorld Nat)
      = ({ reactRuntimeScheduler := 0 },
         { user := 0, schedulers := [ReactRuntimeScheduler.attached []] })) ∧
    (∃ task : Task Nat, (∀ runtime, task runtime 41 = 42) ∧
      RuntimeScheduler.scheduleTask { reactRuntimeScheduler := 0 } 3 (fun u => u + 1)
          ({ user := 0, schedulers := [ReactRuntimeScheduler.attached []] } : SchedulerWorld Nat)
        = some { value := (), self := { reactRuntimeScheduler := 0 },
                 world := { user := 0,
                            schedulers := [ReactRuntimeScheduler.attached [(3, task)]] } }) := by
  have h := bound_scheduleTask_submits_one_task_with_priority 7 0
    ({ user := 0, schedulers := [ReactRuntimeScheduler.attached []] } : SchedulerWorld Nat)
    (ReactRuntimeScheduler.attached []) 3 (fun u => u + 1) rfl
  obtain ⟨hctor, task, htask, _, hattached⟩ := h
  refine ⟨rfl, hctor, task, fun runtime => by rw [htask runtime], ?_⟩
  exact hattached [] rfl

end expo
